import Mathlib

/-!
Verification of the Okta social-login identity-resolution pipeline
(`pkg/login/social/okta_oauth.go`).

The Go code is shallowly embedded: the HTTP client is a deterministic
oracle mapping a URL to either a transport error or a response body;
response bodies are an inductive `Bytes` type that is either empty, the
serialization of a JSON value, or malformed (bytes `encoding/json`
rejects); `json.Unmarshal` is modelled with Go's partial-population
semantics: a type-mismatched field keeps its zero value while the error
is recorded and the remaining fields are still decoded, so the decode
result is the struct paired with a success flag.  Each operation that
may touch the network also returns the number of HTTP GETs it
performed, so that the side-effect claims about fetch counts can be
stated.  A Go panic is an explicit outcome constructor.
-/

set_option autoImplicit false

namespace OktaSocial

/-- JSON values, as produced by decoding a response body.  Objects keep
their fields in order; lookup takes the first binding for a key. -/
inductive Json where
  | null
  | boolVal (b : Bool)
  | num (n : Int)
  | str (s : String)
  | arr (items : List Json)
  | obj (fields : List (String × Json))

/-- A response body (`[]byte` in Go): empty, well-formed JSON, or bytes
that `encoding/json` rejects (distinguished by an arbitrary tag). -/
inductive Bytes where
  | empty
  | jsonBytes (j : Json)
  | malformed (tag : Nat)

/-- `json.Unmarshal`s view of a body: only serialized JSON decodes; the
empty byte slice and malformed bytes produce a decode error. -/
def Bytes.decode : Bytes → Option Json
  | Bytes.jsonBytes j => some j
  | Bytes.empty => none
  | Bytes.malformed _ => none

/-- First binding for `key` in a JSON object's field list. -/
def lookupField (fields : List (String × Json)) (key : String) : Option Json :=
  match fields with
  | [] => none
  | (k, v) :: rest => if k = key then some v else lookupField rest key

/-- Decoding a JSON value into a Go `string` field: a JSON string sets
the field, `null` leaves the zero value; any other shape is an
`UnmarshalTypeError` — the field keeps its zero value and the error is
recorded, but decoding continues elsewhere. -/
def getStrE : Json → String × Bool
  | Json.str s => (s, true)
  | Json.null => ("", true)
  | _ => ("", false)

/-- Elementwise decoding of a JSON array into `[]string`: a mismatched
element keeps its zero value with the error recorded, and the remaining
elements are still decoded (Go keeps unmarshaling as best it can). -/
def decodeStrListE : List Json → List String × Bool
  | [] => ([], true)
  | x :: xs =>
    let e := getStrE x
    let r := decodeStrListE xs
    (e.1 :: r.1, e.2 && r.2)

/-- Decoding a JSON value into `[]string`: arrays decode elementwise,
`null` leaves the zero value; any other shape keeps the zero value and
records the error. -/
def getStrListE : Json → List String × Bool
  | Json.null => ([], true)
  | Json.arr items => decodeStrListE items
  | _ => ([], false)

/-- Decoding the entries of a JSON object into `map[string][]string`:
each key is inserted with its (possibly partially) decoded value, and
any value error is recorded without stopping the decode. -/
def decodeAttrEntriesE : List (String × Json) → List (String × List String) × Bool
  | [] => ([], true)
  | (k, v) :: rest =>
    let e := getStrListE v
    let r := decodeAttrEntriesE rest
    ((k, e.1) :: r.1, e.2 && r.2)

/-- Decoding a JSON value into a Go `map[string][]string` field. -/
def getAttrsE : Json → List (String × List String) × Bool
  | Json.null => ([], true)
  | Json.obj fields => decodeAttrEntriesE fields
  | _ => ([], false)

/-- The `OktaUserInfoJson` struct: typed fields decoded from the
user-info response plus the unexported `rawJSON` byte slice. -/
structure OktaUserInfoJson where
  name : String
  displayName : String
  login : String
  username : String
  email : String
  upn : String
  attributes : List (String × List String)
  groups : List String
  rawJSON : Bytes

/-- The zero value of `OktaUserInfoJson` (`var data OktaUserInfoJson`). -/
def OktaUserInfoJson.zero : OktaUserInfoJson :=
  { name := "", displayName := "", login := "", username := "", email := ""
    upn := "", attributes := [], groups := [], rawJSON := Bytes.empty }

/-- One JSON-tagged struct field: the field's decoded value if its key
is present, the zero value (without error) if absent. -/
def decodeTaggedE {α : Type} (fields : List (String × Json)) (key : String)
    (dec : Json → α × Bool) (dflt : α) : α × Bool :=
  match lookupField fields key with
  | none => (dflt, true)
  | some v => dec v

/-- `json.Unmarshal` of a decoded JSON value into `OktaUserInfoJson`,
with Go's partial-population semantics: a type-mismatched field keeps
its zero value and the error is recorded, but the other fields are
still decoded; absent fields and a `null` document leave zero values
without error; a non-object, non-null top level is an error leaving the
struct untouched.  The unexported `rawJSON` field is never touched by
`Unmarshal`. -/
def unmarshalUserInfo : Json → OktaUserInfoJson × Bool
  | Json.null => (OktaUserInfoJson.zero, true)
  | Json.obj fields =>
    let name := decodeTaggedE fields "name" getStrE ""
    let displayName := decodeTaggedE fields "display_name" getStrE ""
    let login := decodeTaggedE fields "login" getStrE ""
    let username := decodeTaggedE fields "username" getStrE ""
    let email := decodeTaggedE fields "email" getStrE ""
    let upn := decodeTaggedE fields "upn" getStrE ""
    let attributes := decodeTaggedE fields "attributes" getAttrsE []
    let groups := decodeTaggedE fields "groups" getStrListE []
    ({ name := name.1, displayName := displayName.1, login := login.1,
       username := username.1, email := email.1, upn := upn.1,
       attributes := attributes.1, groups := groups.1,
       rawJSON := Bytes.empty },
     name.2 && displayName.2 && login.2 && username.2 && email.2 &&
       upn.2 && attributes.2 && groups.2)
  | _ => (OktaUserInfoJson.zero, false)

/-- `json.Unmarshal` on raw bytes: syntactically invalid bytes are an
error leaving the struct untouched; otherwise the struct decode runs
with partial population. -/
def unmarshalInto (b : Bytes) : OktaUserInfoJson × Bool :=
  match Bytes.decode b with
  | none => (OktaUserInfoJson.zero, false)
  | some j => unmarshalUserInfo j

/-- An HTTP client, as the resolution code observes it: a deterministic
map from a URL to a transport error or a response body. -/
def Client : Type := String → Except Unit Bytes

/-- Modelled from the spec: the `HttpGet` helper of `SocialBase`
(common.go, not under src/) performs one GET and returns the response
body or a transport error. -/
def HttpGet (client : Client) (url : String) : Except Unit Bytes :=
  client url

/-- The provider configuration fields of `SocialOkta`. -/
structure SocialOkta where
  apiUrl : String
  allowedDomains : List String
  allowedGroups : List String
  allowSignup : Bool
  roleAttributePath : String

/-- Walking a dotted key path through a JSON value: each step selects an
object field; when a key resolves to a collection, the first element is
selected. -/
def walkPath : List String → Json → Option Json
  | [], j => some j
  | k :: ks, Json.obj fields =>
    match lookupField fields k with
    | some v => walkPath ks v
    | none => none
  | k :: ks, Json.arr (x :: _) =>
    match x with
    | Json.obj fields =>
      match lookupField fields k with
      | some v => walkPath ks v
      | none => none
    | _ => none
  | _ :: _, _ => none

/-- Splitting a dotted attribute path into its keys (the accumulator
holds the current key's characters in reverse). -/
def splitPathAux : List Char → List Char → List String
  | [], acc => [String.mk acc.reverse]
  | c :: cs, acc =>
    if c = '.' then String.mk acc.reverse :: splitPathAux cs []
    else splitPathAux cs (c :: acc)

/-- The keys of a dotted attribute path, in order. -/
def splitPath (s : String) : List String :=
  splitPathAux s.data []

/-- Modelled from the spec: `SocialBase.searchJSONForAttr` (common.go,
not under src/) evaluates a configured attribute path over raw JSON
bytes; an empty path returns the empty string without inspecting the
document, and any miss (malformed document, missing key, type mismatch,
non-string result) silently returns the empty string. -/
def searchJSONForAttr (attributePath : String) (data : Bytes) : String :=
  if attributePath = "" then ""
  else
    match Bytes.decode data with
    | none => ""
    | some j =>
      match walkPath (splitPath attributePath) j with
      | some (Json.str s) => s
      | _ => ""

/-- `SocialOkta.extractAPI`: one best-effort GET of the user-info
endpoint.  Returns the document, the internal success flag, and the
number of HTTP GETs performed (always one).  On a transport error the
document stays zero; on an `Unmarshal` error the partially decoded
typed fields are kept and only `rawJSON` is reset to the empty slice. -/
def SocialOkta.extractAPI (s : SocialOkta) (client : Client) :
    OktaUserInfoJson × Bool × Nat :=
  match HttpGet client s.apiUrl with
  | Except.error _ => (OktaUserInfoJson.zero, false, 1)
  | Except.ok body =>
    let r := unmarshalInto body
    if r.2 then ({ r.1 with rawJSON := body }, true, 1)
    else ({ r.1 with rawJSON := Bytes.empty }, false, 1)

/-- `SocialOkta.GetGroups`: re-fetches the user-info document and
returns its groups when non-empty, else the empty list; also counts the
HTTP GETs it performed. -/
def SocialOkta.GetGroups (s : SocialOkta) (client : Client) :
    List String × Nat :=
  let r := s.extractAPI client
  (if r.1.groups.length > 0 then r.1.groups else [], r.2.2)

/-- `SocialOkta.extractRole`: evaluate the configured role attribute
path over the document's raw JSON; empty path or any miss gives "". -/
def SocialOkta.extractRole (s : SocialOkta) (data : OktaUserInfoJson) : String :=
  if s.roleAttributePath ≠ "" then
    let role := searchJSONForAttr s.roleAttributePath data.rawJSON
    if role ≠ "" then role else ""
  else ""

/-- The `OktaClaims` struct decoded from the id token. -/
structure OktaClaims where
  id : String
  email : String
  preferredUsername : String
  name : String
  deriving DecidableEq

/-- `OktaClaims.extractEmail`: fall back to the preferred username when
the email claim is empty; never fails. -/
def OktaClaims.extractEmail (claims : OktaClaims) : String :=
  if claims.email = "" then
    if claims.preferredUsername ≠ "" then claims.preferredUsername
    else claims.email
  else claims.email

/-- An id-token string, partitioned by how the JWT library treats it:
structurally malformed (`jwt.ParseSigned` fails), parseable but with an
undecodable claim payload, or carrying a decodable claim set. -/
inductive IdTokenString where
  | malformed (tag : Nat)
  | badClaims (tag : Nat)
  | withClaims (c : OktaClaims)
  deriving DecidableEq

/-- A parsed JWT, as returned by `jwt.ParseSigned`. -/
inductive ParsedJWT where
  | badClaims (tag : Nat)
  | withClaims (c : OktaClaims)
  deriving DecidableEq

/-- `jwt.ParseSigned`: fails exactly on structurally malformed tokens. -/
def jwtParseSigned : IdTokenString → Option ParsedJWT
  | IdTokenString.malformed _ => none
  | IdTokenString.badClaims t => some (ParsedJWT.badClaims t)
  | IdTokenString.withClaims c => some (ParsedJWT.withClaims c)

/-- `UnsafeClaimsWithoutVerification`: decode the claim payload without
signature verification; fails exactly on undecodable payloads. -/
def claimsWithoutVerification : ParsedJWT → Option OktaClaims
  | ParsedJWT.badClaims _ => none
  | ParsedJWT.withClaims c => some c

/-- A value stored in the token's `Extra` map: a string (the only case
the code handles) or some non-string value, on which the unchecked type
assertion `idToken.(string)` panics. -/
inductive ExtraValue where
  | strVal (t : IdTokenString)
  | nonString
  deriving DecidableEq

/-- The oauth2 token, as `UserInfo` observes it: its `Extra` map. -/
structure Token where
  extra : String → Option ExtraValue

/-- The errors `UserInfo` can return. -/
inductive ResolveError where
  | noIdToken
  | parseErr
  | claimsErr
  | noEmail
  deriving DecidableEq

/-- The `BasicUserInfo` record returned on success. -/
structure BasicUserInfo where
  id : String
  name : String
  email : String
  login : String
  role : String
  groups : List String
  deriving DecidableEq

/-- The observable outcome of a call to `UserInfo`: a Go panic, an
error return, or a successful `BasicUserInfo`. -/
inductive UserInfoOutcome where
  | panics
  | fails (e : ResolveError)
  | ok (u : BasicUserInfo)
  deriving DecidableEq

/-- `SocialOkta.UserInfo`: the full resolution.  Returns the outcome
paired with the number of HTTP GETs performed during the call. -/
def SocialOkta.UserInfo (s : SocialOkta) (client : Client) (token : Token) :
    UserInfoOutcome × Nat :=
  match token.extra "id_token" with
  | none => (UserInfoOutcome.fails ResolveError.noIdToken, 0)
  | some ExtraValue.nonString => (UserInfoOutcome.panics, 0)
  | some (ExtraValue.strVal idt) =>
    match jwtParseSigned idt with
    | none => (UserInfoOutcome.fails ResolveError.parseErr, 0)
    | some parsed =>
      match claimsWithoutVerification parsed with
      | none => (UserInfoOutcome.fails ResolveError.claimsErr, 0)
      | some claims =>
        let email := claims.extractEmail
        if email = "" then (UserInfoOutcome.fails ResolveError.noEmail, 0)
        else
          let r := s.extractAPI client
          let role := s.extractRole r.1
          let g := s.GetGroups client
          (UserInfoOutcome.ok
            { id := claims.id, name := claims.name, email := email,
              login := email, role := role, groups := g.1 },
           r.2.2 + g.2)

/-! ## Concrete fixtures -/

/-- The user-info response body of the spec's end-to-end scenario:
`{"groups":["eng"], "attrs":{"role":"editor"}}`. -/
def scenarioJson : Json :=
  Json.obj [("groups", Json.arr [Json.str "eng"]),
            ("attrs", Json.obj [("role", Json.str "editor")])]

/-- The token claims of the end-to-end scenario. -/
def scenarioClaims : OktaClaims :=
  { id := "123", email := "a@b.com", preferredUsername := "", name := "A B" }

/-- A token whose `id_token` field carries the scenario claims. -/
def scenarioToken : Token :=
  { extra := fun _ =>
      some (ExtraValue.strVal (IdTokenString.withClaims scenarioClaims)) }

/-- A client returning the scenario user-info response. -/
def scenarioClient : Client :=
  fun _ => Except.ok (Bytes.jsonBytes scenarioJson)

/-- The provider configuration of the end-to-end scenario. -/
def scenarioConfig : SocialOkta :=
  { apiUrl := "https://okta.example/userinfo", allowedDomains := [],
    allowedGroups := [], allowSignup := true, roleAttributePath := "attrs.role" }

/-- A client whose every GET fails with a transport error. -/
def clientDown : Client := fun _ => Except.error ()

/-- A client returning bytes that `encoding/json` rejects. -/
def clientMalformed : Client := fun _ => Except.ok (Bytes.malformed 7)

/-- A response body that is syntactically valid JSON but fails
structured decoding partway: `{"groups":["eng"],"email":5}` — the
groups field decodes before the email type mismatch is recorded. -/
def partialBody : Json :=
  Json.obj [("groups", Json.arr [Json.str "eng"]), ("email", Json.num 5)]

/-- A client returning the partially decodable body. -/
def clientPartial : Client := fun _ => Except.ok (Bytes.jsonBytes partialBody)

/-- A token whose claims have both email and preferred username empty. -/
def tokenNoEmail : Token :=
  { extra := fun _ =>
      some (ExtraValue.strVal (IdTokenString.withClaims
        { id := "9", email := "", preferredUsername := "", name := "N" })) }

/-- A token carrying a structurally malformed id-token string. -/
def tokenMalformed : Token :=
  { extra := fun _ =>
      some (ExtraValue.strVal (IdTokenString.malformed 3)) }

/-- A token whose `id_token` field holds a non-string value. -/
def tokenNonString : Token :=
  { extra := fun _ => some ExtraValue.nonString }

/-- A token with no `id_token` field at all. -/
def tokenAbsent : Token :=
  { extra := fun _ => none }

/-- The document `{"info":{"role":"admin"}}` of the spec's
attribute-path examples. -/
def docInfoRole : Json :=
  Json.obj [("info", Json.obj [("role", Json.str "admin")])]

/-- A second all-failing client, distinct from `clientDown`, for
comparing two resolutions. -/
def clientDown2 : Client := fun _ => Except.error ()

/-- A user-info document whose raw bytes are `{"info":{"role":"admin"}}`. -/
def docInfoDoc : OktaUserInfoJson :=
  { OktaUserInfoJson.zero with rawJSON := Bytes.jsonBytes docInfoRole }

/-- The scenario configuration with role path `info.role`. -/
def configInfoRole : SocialOkta :=
  { scenarioConfig with roleAttributePath := "info.role" }

/-- The scenario configuration with role path `info.missing`. -/
def configInfoMissing : SocialOkta :=
  { scenarioConfig with roleAttributePath := "info.missing" }

/-- The scenario configuration with an empty role path. -/
def configNoPath : SocialOkta :=
  { scenarioConfig with roleAttributePath := "" }

/-! ## Helper lemmas -/

/-- `extractAPI` performs exactly one HTTP GET on every path. -/
theorem extractAPI_calls (s : SocialOkta) (client : Client) :
    (s.extractAPI client).2.2 = 1 := by
  unfold SocialOkta.extractAPI
  rcases hg : HttpGet client s.apiUrl with e | body
  · simp only [hg]
  · simp only [hg]
    split <;> rfl

/-- When `extractAPI`'s success flag is false, the document's raw bytes
are empty: either the GET failed and the document is zero, or the
decode failed and `rawJSON` was reset to the empty slice. -/
theorem extractAPI_fail_raw (s : SocialOkta) (client : Client)
    (h : (s.extractAPI client).2.1 = false) :
    (s.extractAPI client).1.rawJSON = Bytes.empty := by
  unfold SocialOkta.extractAPI at h ⊢
  rcases hg : HttpGet client s.apiUrl with e | body
  · simp only [hg]
    rfl
  · rcases hr : unmarshalInto body with ⟨doc, rok⟩
    simp only [hg, hr] at h ⊢
    cases rok with
    | false => simp
    | true => simp at h

/-- A transport error leaves `extractAPI`'s document at the zero value. -/
theorem extractAPI_transport (s : SocialOkta) (client : Client) (e : Unit)
    (h : HttpGet client s.apiUrl = Except.error e) :
    s.extractAPI client = (OktaUserInfoJson.zero, false, 1) := by
  unfold SocialOkta.extractAPI
  rw [h]

/-- Attribute-path search over the empty byte slice always misses. -/
theorem searchJSONForAttr_empty (path : String) :
    searchJSONForAttr path Bytes.empty = "" := by
  unfold searchJSONForAttr
  split <;> rfl

/-- Role extraction over a document with empty raw bytes yields "". -/
theorem extractRole_emptyRaw (s : SocialOkta) (d : OktaUserInfoJson)
    (h : d.rawJSON = Bytes.empty) :
    s.extractRole d = "" := by
  unfold SocialOkta.extractRole
  rw [h]
  split
  · simp [searchJSONForAttr_empty]
  · rfl

/-- `GetGroups` performs exactly one HTTP GET. -/
theorem GetGroups_calls (s : SocialOkta) (client : Client) :
    (s.GetGroups client).2 = 1 := by
  unfold SocialOkta.GetGroups
  simp [extractAPI_calls]

/-- When `extractAPI` yields the zero document, `GetGroups` returns the
empty group list. -/
theorem GetGroups_zero (s : SocialOkta) (client : Client)
    (h : (s.extractAPI client).1 = OktaUserInfoJson.zero) :
    (s.GetGroups client).1 = [] := by
  unfold SocialOkta.GetGroups
  simp [h, OktaUserInfoJson.zero]

/-- Role extraction only reads the document's raw bytes. -/
theorem extractRole_raw (s : SocialOkta) (d1 d2 : OktaUserInfoJson)
    (h : d1.rawJSON = d2.rawJSON) :
    s.extractRole d1 = s.extractRole d2 := by
  unfold SocialOkta.extractRole
  rw [h]

/-- Group extraction only reads the fetched document's groups field. -/
theorem GetGroups_groups (s : SocialOkta) (client1 client2 : Client)
    (h : (s.extractAPI client1).1.groups = (s.extractAPI client2).1.groups) :
    (s.GetGroups client1).1 = (s.GetGroups client2).1 := by
  unfold SocialOkta.GetGroups
  simp only []
  rw [h]

/-- `UserInfo` when the token has no `id_token` extension field. -/
theorem userInfo_noToken (s : SocialOkta) (client : Client) (token : Token)
    (h : token.extra "id_token" = none) :
    s.UserInfo client token = (UserInfoOutcome.fails ResolveError.noIdToken, 0) := by
  unfold SocialOkta.UserInfo
  rw [h]

/-- `UserInfo` when the `id_token` field holds a non-string value. -/
theorem userInfo_nonString (s : SocialOkta) (client : Client) (token : Token)
    (h : token.extra "id_token" = some ExtraValue.nonString) :
    s.UserInfo client token = (UserInfoOutcome.panics, 0) := by
  unfold SocialOkta.UserInfo
  rw [h]

/-- `UserInfo` on a structurally malformed id-token string. -/
theorem userInfo_malformed (s : SocialOkta) (client : Client) (token : Token)
    (t : Nat)
    (h : token.extra "id_token" =
      some (ExtraValue.strVal (IdTokenString.malformed t))) :
    s.UserInfo client token = (UserInfoOutcome.fails ResolveError.parseErr, 0) := by
  unfold SocialOkta.UserInfo
  rw [h]
  rfl

/-- `UserInfo` on an id token whose claim payload cannot be decoded. -/
theorem userInfo_badClaims (s : SocialOkta) (client : Client) (token : Token)
    (t : Nat)
    (h : token.extra "id_token" =
      some (ExtraValue.strVal (IdTokenString.badClaims t))) :
    s.UserInfo client token = (UserInfoOutcome.fails ResolveError.claimsErr, 0) := by
  unfold SocialOkta.UserInfo
  rw [h]
  rfl

/-- `UserInfo` when no email can be derived from the claims. -/
theorem userInfo_noEmail (s : SocialOkta) (client : Client) (token : Token)
    (c : OktaClaims)
    (h : token.extra "id_token" =
      some (ExtraValue.strVal (IdTokenString.withClaims c)))
    (he : c.extractEmail = "") :
    s.UserInfo client token = (UserInfoOutcome.fails ResolveError.noEmail, 0) := by
  unfold SocialOkta.UserInfo
  rw [h]
  simp [jwtParseSigned, claimsWithoutVerification, he]

/-- `UserInfo` on the successful path: the assembled record and the two
fetches (`extractAPI` and the one inside `GetGroups`). -/
theorem userInfo_ok (s : SocialOkta) (client : Client) (token : Token)
    (c : OktaClaims)
    (h : token.extra "id_token" =
      some (ExtraValue.strVal (IdTokenString.withClaims c)))
    (he : c.extractEmail ≠ "") :
    s.UserInfo client token =
      (UserInfoOutcome.ok
        { id := c.id, name := c.name, email := c.extractEmail,
          login := c.extractEmail,
          role := s.extractRole (s.extractAPI client).1,
          groups := (s.GetGroups client).1 },
       (s.extractAPI client).2.2 + (s.GetGroups client).2) := by
  unfold SocialOkta.UserInfo
  rw [h]
  simp [jwtParseSigned, claimsWithoutVerification, he]

/-- Inversion: a successful `UserInfo` call comes from a token carrying
decodable claims with a derivable email, returns exactly the assembled
record, and made exactly two GETs. -/
theorem userInfo_ok_inv (s : SocialOkta) (client : Client) (token : Token)
    (u : BasicUserInfo)
    (h : (s.UserInfo client token).1 = UserInfoOutcome.ok u) :
    ∃ c : OktaClaims,
      token.extra "id_token" =
        some (ExtraValue.strVal (IdTokenString.withClaims c)) ∧
      c.extractEmail ≠ "" ∧
      u = { id := c.id, name := c.name, email := c.extractEmail,
            login := c.extractEmail,
            role := s.extractRole (s.extractAPI client).1,
            groups := (s.GetGroups client).1 } ∧
      s.UserInfo client token = (UserInfoOutcome.ok u, 2) := by
  cases htok : token.extra "id_token" with
  | none => rw [userInfo_noToken s client token htok] at h; simp at h
  | some v =>
    cases v with
    | nonString => rw [userInfo_nonString s client token htok] at h; simp at h
    | strVal idt =>
      cases idt with
      | malformed t => rw [userInfo_malformed s client token t htok] at h; simp at h
      | badClaims t => rw [userInfo_badClaims s client token t htok] at h; simp at h
      | withClaims c =>
        by_cases he : c.extractEmail = ""
        · rw [userInfo_noEmail s client token c htok he] at h; simp at h
        · have heq := userInfo_ok s client token c htok he
          have h2 : UserInfoOutcome.ok
              ({ id := c.id, name := c.name, email := c.extractEmail,
                 login := c.extractEmail,
                 role := s.extractRole (s.extractAPI client).1,
                 groups := (s.GetGroups client).1 } : BasicUserInfo) =
              UserInfoOutcome.ok u := by rw [heq] at h; exact h
          injection h2 with h3
          subst h3
          refine ⟨c, rfl, he, rfl, ?_⟩
          rw [heq, extractAPI_calls, GetGroups_calls]

/-- The number of GETs a `UserInfo` call makes: zero on every failing
path, two on the successful path. -/
theorem userInfo_calls (s : SocialOkta) (client : Client) (token : Token) :
    (s.UserInfo client token).2 = 0 ∨ (s.UserInfo client token).2 = 2 := by
  cases htok : token.extra "id_token" with
  | none => left; rw [userInfo_noToken s client token htok]
  | some v =>
    cases v with
    | nonString => left; rw [userInfo_nonString s client token htok]
    | strVal idt =>
      cases idt with
      | malformed t => left; rw [userInfo_malformed s client token t htok]
      | badClaims t => left; rw [userInfo_badClaims s client token t htok]
      | withClaims c =>
        by_cases he : c.extractEmail = ""
        · left; rw [userInfo_noEmail s client token c htok he]
        · right
          rw [userInfo_ok s client token c htok he, extractAPI_calls,
            GetGroups_calls]

/-! ## Claims -/

/-- Claim C1, as stated, is false: on the successful path `UserInfo`
performs two user-info fetches, not at most one — the step-4 fetch in
`UserInfo` itself plus the one `GetGroups` makes by calling `extractAPI`
again.  At the concrete end-to-end scenario the call count is 2. -/
theorem C1_counterexample :
    (scenarioConfig.UserInfo scenarioClient scenarioToken).2 = 2 ∧
    ¬ ((scenarioConfig.UserInfo scenarioClient scenarioToken).2 ≤ 1) :=
  ⟨rfl, by decide⟩

/-- Claim C1 (amended): every call of `UserInfo` performs at most two
outbound network calls, and a successful resolution performs exactly
two: the step-4 fetch plus the second fetch of the same endpoint made
inside group extraction. -/
theorem C1_at_most_two_fetches (s : SocialOkta) (client : Client)
    (token : Token) :
    (s.UserInfo client token).2 ≤ 2 ∧
    (∀ u, (s.UserInfo client token).1 = UserInfoOutcome.ok u →
      (s.UserInfo client token).2 = 2) := by
  constructor
  · rcases userInfo_calls s client token with h | h <;> simp [h]
  · intro u hu
    obtain ⟨c, -, -, -, heq⟩ := userInfo_ok_inv s client token u hu
    rw [heq]

/-- Witness for C1 (amended) at the end-to-end scenario. -/
theorem C1_witness :
    (scenarioConfig.UserInfo scenarioClient scenarioToken).2 ≤ 2 ∧
    (scenarioConfig.UserInfo scenarioClient scenarioToken).2 = 2 :=
  ⟨(C1_at_most_two_fetches scenarioConfig scenarioClient scenarioToken).1,
   (C1_at_most_two_fetches scenarioConfig scenarioClient scenarioToken).2
     ⟨"123", "A B", "a@b.com", "a@b.com", "editor", ["eng"]⟩ rfl⟩

/-- Claim C2: every successful resolution has a non-empty email, and a
token whose claims have both email and preferred username empty fails
with the no-email error (before any identity is constructed and before
any fetch: the call count is 0). -/
theorem C2_email_nonempty_on_success (s : SocialOkta) (client : Client)
    (token : Token) :
    (∀ u, (s.UserInfo client token).1 = UserInfoOutcome.ok u →
      u.email ≠ "") ∧
    (∀ c : OktaClaims,
      token.extra "id_token" =
        some (ExtraValue.strVal (IdTokenString.withClaims c)) →
      c.email = "" → c.preferredUsername = "" →
      s.UserInfo client token =
        (UserInfoOutcome.fails ResolveError.noEmail, 0)) := by
  constructor
  · intro u hu
    obtain ⟨c, -, hne, hrec, -⟩ := userInfo_ok_inv s client token u hu
    rw [hrec]
    exact hne
  · intro c htok he hp
    have hx : c.extractEmail = "" := by
      unfold OktaClaims.extractEmail
      rw [he, hp]
      simp
    exact userInfo_noEmail s client token c htok hx

/-- Witness for C2 at a token with no derivable email. -/
theorem C2_witness :
    scenarioConfig.UserInfo clientDown tokenNoEmail =
      (UserInfoOutcome.fails ResolveError.noEmail, 0) :=
  (C2_email_nonempty_on_success scenarioConfig clientDown tokenNoEmail).2
    { id := "9", email := "", preferredUsername := "", name := "N" } rfl rfl rfl

/-- Claim C3, as stated, is false: when the received response bytes fail
JSON decoding, `extractAPI` resets `rawJSON` to the empty byte slice, so
the original bytes are not retained.  Concretely: a malformed body is
received, decoding fails, and the document's `rawJSON` is empty rather
than the received body. -/
theorem C3_counterexample :
    HttpGet clientMalformed scenarioConfig.apiUrl =
      Except.ok (Bytes.malformed 7) ∧
    (unmarshalInto (Bytes.malformed 7)).2 = false ∧
    (scenarioConfig.extractAPI clientMalformed).1.rawJSON = Bytes.empty ∧
    Bytes.malformed 7 ≠ Bytes.empty :=
  ⟨rfl, rfl, rfl, fun h => Bytes.noConfusion h⟩

/-- Claim C3 (amended): when the response bytes are received but fail
structured JSON decoding, `extractAPI` resets the document's `rawJSON`
to the empty byte slice; the original bytes are retained exactly when
decoding succeeds. -/
theorem C3_rawBytes_cleared_on_decode_failure (s : SocialOkta)
    (client : Client) (b : Bytes)
    (hget : HttpGet client s.apiUrl = Except.ok b) :
    ((unmarshalInto b).2 = false →
      (s.extractAPI client).1.rawJSON = Bytes.empty) ∧
    ((unmarshalInto b).2 = true →
      (s.extractAPI client).1.rawJSON = b) := by
  unfold SocialOkta.extractAPI
  constructor
  · intro hdec
    simp [hget, hdec]
  · intro hdec
    simp [hget, hdec]

/-- Witness for C3 (amended) at a malformed response body. -/
theorem C3_witness :
    (scenarioConfig.extractAPI clientMalformed).1.rawJSON = Bytes.empty :=
  (C3_rawBytes_cleared_on_decode_failure scenarioConfig clientMalformed
    (Bytes.malformed 7) rfl).1 rfl

/-- Claim C4, as stated, is false on the decode-error half: Go's
`Unmarshal` partially populates the struct before returning an error,
so on the body `{"groups":["eng"],"email":5}` the fetch is a decode
failure (the success flag is false) and yet the resolution returns
groups `["eng"]`, not the empty sequence. -/
theorem C4_counterexample :
    (scenarioConfig.extractAPI clientPartial).2.1 = false ∧
    scenarioConfig.UserInfo clientPartial scenarioToken =
      (UserInfoOutcome.ok
        ⟨"123", "A B", "a@b.com", "a@b.com", "", ["eng"]⟩, 2) ∧
    (["eng"] : List String) ≠ [] :=
  ⟨rfl, rfl, by simp⟩

/-- Claim C4 (amended): a user-info fetch failure (transport or decode
error, i.e. `extractAPI`'s success flag is false) is never propagated:
when the token claims yield a non-empty email, `UserInfo` still
succeeds, with role equal to the empty string and groups equal to the
group-extraction result — which is the empty sequence on transport
errors, but on decode errors may retain values partially decoded before
the error; the success flag never changes the returned outcome. -/
theorem C4_fetch_failure_absorbed (s : SocialOkta) (client : Client)
    (token : Token) (c : OktaClaims)
    (htok : token.extra "id_token" =
      some (ExtraValue.strVal (IdTokenString.withClaims c)))
    (hemail : c.extractEmail ≠ "")
    (hfail : (s.extractAPI client).2.1 = false) :
    s.UserInfo client token =
      (UserInfoOutcome.ok
        { id := c.id, name := c.name, email := c.extractEmail,
          login := c.extractEmail, role := "",
          groups := (s.GetGroups client).1 }, 2) ∧
    (∀ e, HttpGet client s.apiUrl = Except.error e →
      (s.GetGroups client).1 = []) := by
  constructor
  · have hraw := extractAPI_fail_raw s client hfail
    rw [userInfo_ok s client token c htok hemail, extractAPI_calls,
      GetGroups_calls, extractRole_emptyRaw s (s.extractAPI client).1 hraw]
  · intro e he
    have h0 : (s.extractAPI client).1 = OktaUserInfoJson.zero := by
      rw [extractAPI_transport s client e he]
    exact GetGroups_zero s client h0

/-- Witness for C4 (amended) at a client whose every GET fails. -/
theorem C4_witness :
    scenarioConfig.UserInfo clientDown scenarioToken =
      (UserInfoOutcome.ok
        ⟨"123", "A B", "a@b.com", "a@b.com", "", []⟩, 2) := by
  have h := C4_fetch_failure_absorbed scenarioConfig clientDown scenarioToken
    scenarioClaims rfl (by decide) rfl
  rw [h.1]
  rfl

/-- Claim C5: a structurally malformed id-token string makes `UserInfo`
fail with the parse error, with zero network calls performed. -/
theorem C5_malformed_token_no_fetch (s : SocialOkta) (client : Client)
    (token : Token) (t : Nat)
    (h : token.extra "id_token" =
      some (ExtraValue.strVal (IdTokenString.malformed t))) :
    s.UserInfo client token =
      (UserInfoOutcome.fails ResolveError.parseErr, 0) :=
  userInfo_malformed s client token t h

/-- Witness for C5 at a concrete malformed token. -/
theorem C5_witness :
    scenarioConfig.UserInfo scenarioClient tokenMalformed =
      (UserInfoOutcome.fails ResolveError.parseErr, 0) :=
  C5_malformed_token_no_fetch scenarioConfig scenarioClient tokenMalformed 3 rfl

/-- Claim C6: the derived email is the email claim when non-empty and
the preferred-username claim when the email claim is empty; in
particular the fallback example of the spec holds, and the extractor
returns (the empty string, not a failure) when both claims are empty. -/
theorem C6_email_fallback :
    (∀ c : OktaClaims,
      c.extractEmail = if c.email = "" then c.preferredUsername else c.email) ∧
    OktaClaims.extractEmail
      { id := "", email := "", preferredUsername := "u@example.com",
        name := "" } = "u@example.com" ∧
    OktaClaims.extractEmail
      { id := "", email := "", preferredUsername := "", name := "" } = "" := by
  refine ⟨?_, rfl, rfl⟩
  intro c
  unfold OktaClaims.extractEmail
  by_cases h : c.email = ""
  · simp only [h, if_true]
    by_cases h2 : c.preferredUsername = "" <;> simp [h2, h]
  · simp [h]

/-- Claim C7: on success the identity is assembled as id = subject,
name = name claim, email = login = derived email, role = the
attribute-path extraction over the fetched document, groups = the
fetched document's groups when non-empty and `[]` otherwise; and the
end-to-end scenario of the spec yields exactly the stated record. -/
theorem C7_assembly (s : SocialOkta) (client : Client) (token : Token)
    (c : OktaClaims)
    (htok : token.extra "id_token" =
      some (ExtraValue.strVal (IdTokenString.withClaims c)))
    (hemail : c.extractEmail ≠ "") :
    s.UserInfo client token =
      (UserInfoOutcome.ok
        { id := c.id, name := c.name, email := c.extractEmail,
          login := c.extractEmail,
          role := s.extractRole (s.extractAPI client).1,
          groups := if ((s.extractAPI client).1).groups.length > 0
            then ((s.extractAPI client).1).groups else [] }, 2) ∧
    scenarioConfig.UserInfo scenarioClient scenarioToken =
      (UserInfoOutcome.ok
        ⟨"123", "A B", "a@b.com", "a@b.com", "editor", ["eng"]⟩, 2) := by
  refine ⟨?_, rfl⟩
  rw [userInfo_ok s client token c htok hemail, extractAPI_calls,
    GetGroups_calls]
  rfl

/-- Witness for C7: the end-to-end scenario. -/
theorem C7_witness :
    scenarioConfig.UserInfo scenarioClient scenarioToken =
      (UserInfoOutcome.ok
        ⟨"123", "A B", "a@b.com", "a@b.com", "editor", ["eng"]⟩, 2) :=
  (C7_assembly scenarioConfig scenarioClient scenarioToken scenarioClaims
    rfl (by decide)).2

/-- Claim C8: role extraction returns the empty string for every
document when the configured path is empty, returns the empty string on
a malformed document or a missing key, and resolves the spec's example
path; it never produces an error. -/
theorem C8_role_extraction_best_effort :
    (∀ (s : SocialOkta) (d : OktaUserInfoJson),
      s.roleAttributePath = "" → s.extractRole d = "") ∧
    (∀ (path : String) (t : Nat),
      searchJSONForAttr path (Bytes.malformed t) = "") ∧
    configInfoRole.extractRole docInfoDoc = "admin" ∧
    configInfoMissing.extractRole docInfoDoc = "" := by
  refine ⟨?_, ?_, rfl, rfl⟩
  · intro s d h
    unfold SocialOkta.extractRole
    simp [h]
  · intro path t
    unfold searchJSONForAttr
    split <;> rfl

/-- Witness for C8: an empty configured path on a concrete document. -/
theorem C8_witness :
    configNoPath.extractRole docInfoDoc = "" :=
  C8_role_extraction_best_effort.1 configNoPath docInfoDoc rfl

/-- Claim C9: when the `id_token` extension field holds a non-string
value, `UserInfo` panics on the unchecked type assertion instead of
returning an error; the declared no-identity-token error is returned
exactly when the field is absent. -/
theorem C9_nonstring_id_token_panics (s : SocialOkta) (client : Client)
    (token : Token) :
    (token.extra "id_token" = some ExtraValue.nonString →
      s.UserInfo client token = (UserInfoOutcome.panics, 0)) ∧
    (token.extra "id_token" = none →
      s.UserInfo client token =
        (UserInfoOutcome.fails ResolveError.noIdToken, 0)) :=
  ⟨userInfo_nonString s client token, userInfo_noToken s client token⟩

/-- Witness for C9 at a token carrying a non-string `id_token`. -/
theorem C9_witness :
    scenarioConfig.UserInfo scenarioClient tokenNonString =
      (UserInfoOutcome.panics, 0) :=
  (C9_nonstring_id_token_panics scenarioConfig scenarioClient
    tokenNonString).1 rfl

/-- Claim C10: role extraction reads only the document's raw bytes, and
two resolutions whose fetched documents agree on the raw bytes and on
the groups field produce identical outcomes — no other typed field of
the fetched document influences the result. -/
theorem C10_only_raw_and_groups_matter (s : SocialOkta) (token : Token)
    (client1 client2 : Client) :
    (∀ d1 d2 : OktaUserInfoJson, d1.rawJSON = d2.rawJSON →
      s.extractRole d1 = s.extractRole d2) ∧
    ((s.extractAPI client1).1.rawJSON = (s.extractAPI client2).1.rawJSON →
      (s.extractAPI client1).1.groups = (s.extractAPI client2).1.groups →
      s.UserInfo client1 token = s.UserInfo client2 token) := by
  constructor
  · exact extractRole_raw s
  · intro hraw hgroups
    cases htok : token.extra "id_token" with
    | none =>
      rw [userInfo_noToken s client1 token htok,
        userInfo_noToken s client2 token htok]
    | some v =>
      cases v with
      | nonString =>
        rw [userInfo_nonString s client1 token htok,
          userInfo_nonString s client2 token htok]
      | strVal idt =>
        cases idt with
        | malformed t =>
          rw [userInfo_malformed s client1 token t htok,
            userInfo_malformed s client2 token t htok]
        | badClaims t =>
          rw [userInfo_badClaims s client1 token t htok,
            userInfo_badClaims s client2 token t htok]
        | withClaims c =>
          by_cases he : c.extractEmail = ""
          · rw [userInfo_noEmail s client1 token c htok he,
              userInfo_noEmail s client2 token c htok he]
          · rw [userInfo_ok s client1 token c htok he,
              userInfo_ok s client2 token c htok he,
              extractAPI_calls s client1, extractAPI_calls s client2,
              GetGroups_calls s client1, GetGroups_calls s client2,
              extractRole_raw s (s.extractAPI client1).1
                (s.extractAPI client2).1 hraw,
              GetGroups_groups s client1 client2 hgroups]

/-- Witness for C10: two distinct failing clients yield the same
resolution. -/
theorem C10_witness :
    scenarioConfig.UserInfo clientDown scenarioToken =
      scenarioConfig.UserInfo clientDown2 scenarioToken :=
  (C10_only_raw_and_groups_matter scenarioConfig scenarioToken clientDown
    clientDown2).2 rfl rfl

end OktaSocial
